import Mathlib

/-!
Shallow embedding of the wikipedia-demo server (src/main.go) and proofs of
the spec's claims about it.  Go `int` values are modelled as `Int`; Go
strings as `String`.  Each definition names the source function it embeds.
-/

namespace WikipediaDemo

/-- One element of the `query.search` array of the upstream JSON response
(src/main.go lines 41-49).  `time.Time` is modelled as its JSON string. -/
structure SearchResultEntry where
  Ns : Int
  Title : String
  PageID : Int
  Size : Int
  WordCount : Int
  Snippet : String
  Timestamp : String
deriving DecidableEq, Repr

/-- The `continue` member of the upstream response (src/main.go lines 33-36). -/
structure WSRContinue where
  Sroffset : Int
  Cont : String
deriving DecidableEq, Repr

/-- The `searchinfo` member of the upstream response (src/main.go lines 38-40). -/
structure WSRSearchInfo where
  TotalHits : Int
deriving DecidableEq, Repr

/-- The `query` member of the upstream response (src/main.go lines 37-50). -/
structure WSRQuery where
  SearchInfo : WSRSearchInfo
  Search : List SearchResultEntry
deriving DecidableEq, Repr

/-- Embeds `WikipediaSearchResponse` (src/main.go lines 31-51). -/
structure WikipediaSearchResponse where
  BatchComplete : String
  Cont : WSRContinue
  Query : WSRQuery
deriving DecidableEq, Repr

/-- The pagination model `Search` (src/main.go lines 53-58). -/
structure Search where
  Query : String
  TotalPages : Int
  NextPage : Int
  Results : WikipediaSearchResponse
deriving DecidableEq, Repr

/-- Embeds `Search.IsLastPage` (src/main.go lines 60-62): `s.NextPage >= s.TotalPages`. -/
def Search.IsLastPage (s : Search) : Bool :=
  s.NextPage ≥ s.TotalPages

/-- Embeds `Search.CurrentPage` (src/main.go lines 64-70): `NextPage` when it is 1,
otherwise `NextPage - 1`. -/
def Search.CurrentPage (s : Search) : Int :=
  if s.NextPage = 1 then s.NextPage else s.NextPage - 1

/-- Embeds `Search.PreviousPage` (src/main.go lines 72-74): `CurrentPage() - 1`. -/
def Search.PreviousPage (s : Search) : Int :=
  s.CurrentPage - 1

/-- The fixed page size of the search handler (src/main.go line 193). -/
def pageSize : Int := 20

/-- Embeds `int(math.Ceil(float64 a / float64 b))` (src/main.go line 210) for
`b > 0`, embedded as exact integer ceiling division: `⌈a/b⌉ = -((-a)/b)`
with Lean's Euclidean `Int` division (for a positive divisor, floor
division).  Exact wherever the `float64` arithmetic of the source is. -/
def ceilIntDiv (a b : Int) : Int :=
  -((-a) / b)

/-- Embeds `resultsOffset := (nextPage - 1) * pageSize` (src/main.go line 195). -/
def resultsOffset (nextPage : Int) : Int :=
  (nextPage - 1) * pageSize

/-- The `Search` value the search handler builds from the query string, the
parsed page number and the upstream response (src/main.go lines 205-212). -/
def searchModel (q : String) (nextPage : Int) (resp : WikipediaSearchResponse) : Search :=
  { Query := q
    Results := resp
    TotalPages := ceilIntDiv resp.Query.SearchInfo.TotalHits pageSize
    NextPage := nextPage + 1 }

/-- The URL `searchWikipedia` builds with `fmt.Sprintf` (src/main.go lines
126-133): the page size, the search string and the offset are interpolated
directly into the format string; no escaping is applied to the search
string. -/
def buildSearchURL (searchQuery : String) (ps resultsOff : Int) : String :=
  "https://en.wikipedia.org/w/api.php?action=query&list=search&prop=info&inprop=url&utf8=&format=json&origin=*&srlimit="
    ++ toString ps ++ "&srsearch=" ++ searchQuery ++ "&sroffset=" ++ toString resultsOff

/-- The UTF-8 encoding of one Unicode code point, as naturals. -/
def utf8EncodeCodePoint (c : Nat) : List Nat :=
  if c < 128 then [c]
  else if c < 2048 then [192 + c / 64, 128 + c % 64]
  else if c < 65536 then [224 + c / 4096, 128 + (c / 64) % 64, 128 + c % 64]
  else [240 + c / 262144, 128 + (c / 4096) % 64, 128 + (c / 64) % 64, 128 + c % 64]

/-- The UTF-8 bytes of a string, as naturals. -/
def utf8Bytes (s : String) : List Nat :=
  (s.data.map (fun ch => utf8EncodeCodePoint ch.toNat)).flatten

/-- Concatenation of a list of strings. -/
def concatAll : List String → String
  | [] => ""
  | s :: rest => s ++ concatAll rest

/-- Uppercase hexadecimal digit for `n < 16`. -/
def hexDigitUpper (n : Nat) : Char :=
  if n < 10 then Char.ofNat (48 + n) else Char.ofNat (55 + n)

/-- Spec-side definition (claim C2): how Go's `net/url.QueryEscape` escapes
one byte — space becomes `+`, ASCII letters, digits and `-_.~` stay, every
other byte becomes `%XX` with uppercase hex. -/
def escapeByte (b : Nat) : String :=
  if b = 32 then "+"
  else if (65 ≤ b ∧ b ≤ 90) ∨ (97 ≤ b ∧ b ≤ 122) ∨ (48 ≤ b ∧ b ≤ 57)
      ∨ b = 45 ∨ b = 95 ∨ b = 46 ∨ b = 126 then
    String.singleton (Char.ofNat b)
  else
    "%" ++ String.singleton (hexDigitUpper (b / 16)) ++ String.singleton (hexDigitUpper (b % 16))

/-- Spec-side definition (claim C2): Go's `net/url.QueryEscape` applied to a
whole string, byte by byte over its UTF-8 encoding. -/
def queryEscape (s : String) : String :=
  concatAll ((utf8Bytes s).map escapeByte)

/-- Spec-side definition (claim C2): the URL the spec describes, with the
search string percent-encoded before being placed in `srsearch`. -/
def buildSearchURLEncoded (searchQuery : String) (ps resultsOff : Int) : String :=
  buildSearchURL (queryEscape searchQuery) ps resultsOff

/-- The error message `searchWikipedia` wraps around the dumped upstream
response on a non-200 status (src/main.go lines 143-146). -/
def wikipediaNon200Error (dump : String) : String :=
  "non 200 OK response from Wikipedia API: " ++ dump

/-- The status-check stage of `searchWikipedia` (src/main.go lines 140-147):
on a non-200 upstream status the call fails with the dump-carrying error,
otherwise it proceeds to read and deserialize the body (`parse`). -/
def searchWikipediaStatusCheck (statusCode : Int) (dump : String)
    (parse : Except String WikipediaSearchResponse) : Except String WikipediaSearchResponse :=
  if statusCode ≠ 200 then Except.error (wikipediaNon200Error dump) else parse

/-- What a handler did to the response writer plus the error it returned:
the status code set on the writer, the body chunks written (in order), and
the returned error (src/main.go type `handlerWithError`, line 76). -/
structure HandlerOutcome where
  status : Int
  writes : List String
  err : Option String
deriving DecidableEq, Repr

/-- The final HTTP response: status code and body. -/
structure Response where
  status : Int
  body : String
deriving DecidableEq, Repr

/-- Embeds `handlerWithError.ServeHTTP` (src/main.go lines 78-85): a non-nil error
is logged and turned into a 500 whose body is the error message terminated by a
newline (`http.Error` writes it with `fmt.Fprintln`), appended after whatever
the handler already wrote (for these handlers, nothing).  Returns the response
and the logged error message, if any. -/
def serveWithError (h : HandlerOutcome) : Response × Option String :=
  match h.err with
  | some e => (⟨500, concatAll h.writes ++ e ++ "\n"⟩, some e)
  | none => (⟨h.status, concatAll h.writes⟩, none)

/-- The body Go's `http.NotFound` writes. -/
def notFoundBody : String := "404 page not found\n"

/-- Embeds `indexHandler` (src/main.go lines 105-120).  `tplExecute` embeds
`tpl.Execute` with its data argument (`none` for the index page's `nil`):
the handler renders into a buffer and copies the buffer to the writer only
when rendering succeeded; a render error is returned with nothing written. -/
def indexHandler (path : String) (tplExecute : Option Search → Except String String) :
    HandlerOutcome :=
  if path ≠ "/" then ⟨404, [notFoundBody], none⟩
  else
    match tplExecute none with
    | Except.error e => ⟨200, [], some e⟩
    | Except.ok b => ⟨200, [b], none⟩

/-- Accumulating decimal parser: fails on any non-digit character. -/
def parseNatDigits (acc : Nat) : List Char → Option Nat
  | [] => some acc
  | c :: rest =>
    if 48 ≤ c.toNat ∧ c.toNat ≤ 57 then parseNatDigits (acc * 10 + (c.toNat - 48)) rest
    else none

/-- Decimal integer syntax accepted by Go's `strconv.Atoi`: an optional
sign followed by at least one digit (overflow is not modelled; Go `int`
is modelled as unbounded `Int`). -/
def atoiChars : List Char → Option Int
  | [] => none
  | c :: rest =>
    if c = '-' then
      match rest with
      | [] => none
      | _ => (parseNatDigits 0 rest).map (fun n => -(n : Int))
    else if c = '+' then
      match rest with
      | [] => none
      | _ => (parseNatDigits 0 rest).map (fun n => (n : Int))
    else (parseNatDigits 0 (c :: rest)).map (fun n => (n : Int))

/-- Embeds `strconv.Atoi` (src/main.go line 188), modelled as decimal `Int`
parsing: success yields the integer, failure an error message. -/
def atoi (s : String) : Except String Int :=
  match atoiChars s.data with
  | some n => Except.ok n
  | none => Except.error ("strconv.Atoi: parsing " ++ s ++ ": invalid")

/-- Embeds `searchHandler` (src/main.go lines 164-229).  `upstream` embeds
`searchWikipedia` applied to the fixed query and page size, as a function of
the results offset; `tplExecute` embeds `tpl.Execute`.  The page parameter
defaults to "1" when empty, the offset is `(page-1)*20`, and the rendered
buffer is copied to the writer only after rendering succeeds. -/
def searchHandler (q pageParam : String)
    (upstream : Int → Except String WikipediaSearchResponse)
    (tplExecute : Option Search → Except String String) : HandlerOutcome :=
  let pageNum := if pageParam = "" then "1" else pageParam
  match atoi pageNum with
  | Except.error e => ⟨200, [], some e⟩
  | Except.ok nextPage =>
    match upstream (resultsOffset nextPage) with
    | Except.error e => ⟨200, [], some e⟩
    | Except.ok resp =>
      match tplExecute (some (searchModel q nextPage resp)) with
      | Except.error e => ⟨200, [], some e⟩
      | Except.ok b => ⟨200, [b], none⟩

/-- The completion log record of the logging middleware (src/main.go lines
267-274). -/
structure AccessLog where
  method : String
  url : String
  userAgent : String
  statusCode : Int
deriving DecidableEq, Repr

/-- The deferred function of `requestLogger` (src/main.go lines 260-275),
applied to the value `recover()` returned (`none` when the handler did not
panic) and the status captured by the wrapping response writer.  Returns the
final captured status, the emitted completion log record, if any, and the
re-raised panic value, if any.  On a panic the source sets the captured
status to 500 and calls `panic` again BEFORE the logging statement, so
no record is emitted on that path. -/
def requestLoggerDeferred (panicVal : Option String) (capturedStatus : Int)
    (method url userAgent : String) : Int × Option AccessLog × Option String :=
  match panicVal with
  | some v => (500, none, some v)
  | none => (capturedStatus, some ⟨method, url, userAgent, capturedStatus⟩, none)

/-- A concrete upstream response with the given `totalhits` and no result
entries, used as the stub upstream of the concrete-instance claims. -/
def respWithHits (h : Int) : WikipediaSearchResponse :=
  { BatchComplete := ""
    Cont := { Sroffset := 20, Cont := "-||" }
    Query := { SearchInfo := { TotalHits := h }, Search := [] } }

/-- C1: the claim asserts that for `page=2` and `totalhits=50` the model
built by the search handler has `TotalPages=3`, `CurrentPage()=2`,
`NextPage=3` and `IsLastPage()=false`.  It is false on the code: the first
three values hold, but `IsLastPage()` is `NextPage >= TotalPages`, i.e.
`3 >= 3`, which is `true`. -/
theorem claim_C1_counterexample :
    ¬((searchModel "cat" 2 (respWithHits 50)).TotalPages = 3
      ∧ (searchModel "cat" 2 (respWithHits 50)).CurrentPage = 2
      ∧ (searchModel "cat" 2 (respWithHits 50)).NextPage = 3
      ∧ (searchModel "cat" 2 (respWithHits 50)).IsLastPage = false) := by
  decide

/-- C1 (amended): for a search request with `page=2` against an upstream
response with `totalhits=50` and page size 20, the search handler hands the
template exactly the model `searchModel "cat" 2 (respWithHits 50)`, and that
model has `TotalPages=3`, `CurrentPage()=2`, `NextPage=3` and
`IsLastPage()=true`. -/
theorem claim_C1_amended :
    searchHandler "cat" "2" (fun _ => Except.ok (respWithHits 50))
        (fun d => if d = some (searchModel "cat" 2 (respWithHits 50))
                  then Except.ok "page" else Except.error "unexpected model")
      = ⟨200, ["page"], none⟩
    ∧ (searchModel "cat" 2 (respWithHits 50)).TotalPages = 3
    ∧ (searchModel "cat" 2 (respWithHits 50)).CurrentPage = 2
    ∧ (searchModel "cat" 2 (respWithHits 50)).NextPage = 3
    ∧ (searchModel "cat" 2 (respWithHits 50)).IsLastPage = true := by
  refine ⟨by decide, by decide, by decide, by decide, by decide⟩

/-- C2: the claim asserts the upstream GET URL carries the parameters
URL-encoded, the search string percent-encoded inside `srsearch`.  It is
false on the code: `searchWikipedia` interpolates the raw search string
with `fmt.Sprintf`, so for the query string "a b" the built URL differs
from the URL built from the percent-encoded query. -/
theorem claim_C2_counterexample :
    ¬(buildSearchURL "a b" 20 0 = buildSearchURLEncoded "a b" 20 0) := by
  decide

/-- C2 (amended): the upstream GET URL embeds the decimal page size and
offset and the verbatim search string; it coincides with the URL-encoded
form of the spec exactly when percent-encoding leaves the search string
unchanged (no space, no reserved or non-ASCII character). -/
theorem claim_C2_amended (q : String) (ps off : Int) :
    buildSearchURL q ps off = buildSearchURLEncoded q ps off ↔ queryEscape q = q := by
  constructor
  · intro h
    unfold buildSearchURLEncoded buildSearchURL at h
    have h2 := congrArg String.data h
    simp [String.data_append, List.append_assoc] at h2
    exact (String.ext h2.symm)
  · intro h
    unfold buildSearchURLEncoded
    rw [h]

theorem claim_C2_amended_witness :
    buildSearchURL "cat" 20 0 = buildSearchURLEncoded "cat" 20 0 :=
  (claim_C2_amended "cat" 20 0).mpr (by decide)

/-- C3: the claim asserts that when the wrapped handler panics the logging
middleware still emits the completion log record with the status forced to
500 and then re-raises the panic unchanged.  On the code, the deferred
function of `requestLogger` re-panics BEFORE the logging statement, so the
captured status is forced to 500 and the panic is re-raised unchanged, but
NO completion record is emitted — contradicting both the claim and the
source's own comment on line 259 ("if the handler panics, the request will
still be logged"). -/
theorem claim_C3_panic_not_logged :
    requestLoggerDeferred (some "boom") 200 "GET" "/search?q=cat" "curl/8.0"
      = (500, none, some "boom")
    ∧ requestLoggerDeferred none 200 "GET" "/search?q=cat" "curl/8.0"
      = (200, some ⟨"GET", "/search?q=cat", "curl/8.0", 200⟩, none) := by
  exact ⟨rfl, rfl⟩

/-- C4: for every `Search` value, `IsLastPage()` returns true if and only
if `NextPage >= TotalPages`. -/
theorem claim_C4_isLastPage_iff (s : Search) :
    s.IsLastPage = true ↔ s.NextPage ≥ s.TotalPages := by
  simp [Search.IsLastPage]

theorem claim_C4_isLastPage_iff_witness :
    Search.IsLastPage ⟨"cat", 3, 5, respWithHits 50⟩ = true :=
  (claim_C4_isLastPage_iff ⟨"cat", 3, 5, respWithHits 50⟩).mpr (by decide)

/-- C5: for every upstream response, the `TotalPages` field of the model
built by the search handler is the integer ceiling of `totalhits / 20`;
in particular `totalhits = 45` gives `TotalPages = 3`. -/
theorem claim_C5_totalPages_ceil :
    (∀ (q : String) (p : Int) (resp : WikipediaSearchResponse),
      (searchModel q p resp).TotalPages = ⌈(resp.Query.SearchInfo.TotalHits : ℚ) / 20⌉)
    ∧ (searchModel "cat" 1 (respWithHits 45)).TotalPages = 3 := by
  constructor
  · intro q p resp
    have key : ∀ h : Int, (⌈(h : ℚ) / 20⌉ : Int) = -((-h) / 20) := by
      intro h
      rw [show ((h : ℚ) / 20) = -((-h : ℤ) / (20 : ℕ) : ℚ) by push_cast; ring]
      rw [Int.ceil_neg, Rat.floor_intCast_div_natCast]
      norm_num
    simp [searchModel, ceilIntDiv, pageSize, key]
  · decide

/-- C6: for every integer page number `p` parsed from the page parameter,
the offset handed to the upstream client is `(p-1)*20`, and for `p ≤ 0`
that (negative) offset is passed through unvalidated. -/
theorem claim_C6_offset (p : Int) :
    resultsOffset p = (p - 1) * 20 ∧ (p ≤ 0 → resultsOffset p < 0) := by
  constructor
  · rfl
  · intro hp
    show (p - 1) * pageSize < 0
    exact mul_neg_of_neg_of_pos (by omega) (by norm_num [pageSize])

theorem claim_C6_offset_witness :
    resultsOffset 0 = (0 - 1) * 20 ∧ resultsOffset 0 < 0 :=
  ⟨(claim_C6_offset 0).1, (claim_C6_offset 0).2 (by decide)⟩

/-- C7: for every `Search` value, `CurrentPage()` is `NextPage` when
`NextPage = 1` and `NextPage - 1` otherwise, and `PreviousPage()` is
`CurrentPage() - 1`; in particular `NextPage=1` gives `CurrentPage()=1`,
`PreviousPage()=0`, and `NextPage=5` gives `CurrentPage()=4`,
`PreviousPage()=3`. -/
theorem claim_C7_currentPage :
    (∀ s : Search,
      s.CurrentPage = (if s.NextPage = 1 then s.NextPage else s.NextPage - 1)
      ∧ s.PreviousPage = s.CurrentPage - 1)
    ∧ (Search.CurrentPage ⟨"", 3, 1, respWithHits 50⟩ = 1
       ∧ Search.PreviousPage ⟨"", 3, 1, respWithHits 50⟩ = 0)
    ∧ (Search.CurrentPage ⟨"", 3, 5, respWithHits 50⟩ = 4
       ∧ Search.PreviousPage ⟨"", 3, 5, respWithHits 50⟩ = 3) := by
  refine ⟨fun s => ⟨rfl, rfl⟩, ⟨by decide, by decide⟩, ⟨by decide, by decide⟩⟩

/-- C8: the claim asserts the adapter's 500 body is exactly the error's
message.  It is false on the code: `http.Error` writes the message with
`fmt.Fprintln`, so the body carries a trailing newline — for the error
"boom" the body is "boom\n", not "boom". -/
theorem claim_C8_counterexample :
    (serveWithError ⟨200, [], some "boom"⟩).1.body ≠ "boom" := by
  decide

/-- C8 (amended): whenever a handler returns a non-nil error without having
written to the response (the case on every parse, upstream and render
failure of these handlers), the adapter logs it and answers 500 with the
error message followed by the newline `http.Error` appends; a non-200
upstream status makes `searchWikipedia` fail with the error wrapping the
full dumped response, so the dump reaches the 500 body. -/
theorem claim_C8_error_to_500 :
    (∀ (h : HandlerOutcome) (e : String), h.writes = [] → h.err = some e →
      serveWithError h = (⟨500, e ++ "\n"⟩, some e))
    ∧ (∀ (status : Int) (dump : String) (parse : Except String WikipediaSearchResponse),
        status ≠ 200 →
        searchWikipediaStatusCheck status dump parse = Except.error (wikipediaNon200Error dump))
    ∧ (∀ dump : String, ∃ pre post : String,
        (serveWithError ⟨200, [], some (wikipediaNon200Error dump)⟩).1.body
          = pre ++ dump ++ post) := by
  refine ⟨?_, ?_, ?_⟩
  · intro h e hw he
    simp [serveWithError, he, hw, concatAll]
  · intro status dump parse hs
    simp [searchWikipediaStatusCheck, hs]
  · intro dump
    refine ⟨"non 200 OK response from Wikipedia API: ", "\n", ?_⟩
    simp [serveWithError, wikipediaNon200Error, concatAll, String.append_assoc]

theorem claim_C8_error_to_500_witness :
    serveWithError ⟨200, [], some (wikipediaNon200Error "HTTP/1.1 503 Service Unavailable")⟩
      = (⟨500, wikipediaNon200Error "HTTP/1.1 503 Service Unavailable" ++ "\n"⟩,
         some (wikipediaNon200Error "HTTP/1.1 503 Service Unavailable"))
    ∧ searchWikipediaStatusCheck 503 "HTTP/1.1 503 Service Unavailable"
        (Except.ok (respWithHits 0))
      = Except.error (wikipediaNon200Error "HTTP/1.1 503 Service Unavailable") :=
  ⟨claim_C8_error_to_500.1 _ _ rfl rfl,
   claim_C8_error_to_500.2.1 503 _ _ (by decide)⟩

/-- C9: a GET for the exact path "/" makes the index handler render the
template with no data and answer 200 with the rendered page as body; any
other path makes it answer 404 while returning no error, so the adapter
produces no 500. -/
theorem claim_C9_indexHandler :
    (∀ (tplE : Option Search → Except String String) (b : String),
      tplE none = Except.ok b →
      serveWithError (indexHandler "/" tplE) = (⟨200, b⟩, none))
    ∧ (∀ (path : String) (tplE : Option Search → Except String String),
        path ≠ "/" →
        (indexHandler path tplE).err = none
        ∧ serveWithError (indexHandler path tplE) = (⟨404, notFoundBody⟩, none)) := by
  constructor
  · intro tplE b hb
    simp [indexHandler, hb, serveWithError, concatAll]
  · intro path tplE hp
    simp [indexHandler, hp, serveWithError, concatAll]

theorem claim_C9_indexHandler_witness :
    serveWithError (indexHandler "/" (fun _ => Except.ok "index")) = (⟨200, "index"⟩, none)
    ∧ (indexHandler "/foo" (fun _ => Except.ok "index")).err = none
    ∧ serveWithError (indexHandler "/foo" (fun _ => Except.ok "index"))
        = (⟨404, notFoundBody⟩, none) :=
  ⟨claim_C9_indexHandler.1 _ "index" rfl,
   (claim_C9_indexHandler.2 "/foo" _ (by decide)).1,
   (claim_C9_indexHandler.2 "/foo" _ (by decide)).2⟩

/-- C10: the claim asserts that on a template failure the 500 error message
is the entire response body.  Its buffered-render half is true, but the
body half is false on the code: `http.Error` appends a newline, so for the
render error "template: boom" the body is "template: boom\n", not the
message alone. -/
theorem claim_C10_counterexample :
    (serveWithError (indexHandler "/" (fun _ => Except.error "template: boom"))).1.body
      ≠ "template: boom" := by
  decide

/-- C10 (amended): both handlers render the template into a buffer and copy
it to the response only after rendering succeeds, so when template
execution fails no body bytes have been written by the handler, and the
response body is exactly the 500 error message followed by the newline
`http.Error` appends. -/
theorem claim_C10_buffered_render :
    (∀ (tplE : Option Search → Except String String) (e : String),
      tplE none = Except.error e →
      (indexHandler "/" tplE).writes = []
      ∧ serveWithError (indexHandler "/" tplE) = (⟨500, e ++ "\n"⟩, some e))
    ∧ (∀ (q pageParam : String) (upstream : Int → Except String WikipediaSearchResponse)
        (tplE : Option Search → Except String String) (p : Int)
        (resp : WikipediaSearchResponse) (e : String),
        atoi (if pageParam = "" then "1" else pageParam) = Except.ok p →
        upstream (resultsOffset p) = Except.ok resp →
        tplE (some (searchModel q p resp)) = Except.error e →
        (searchHandler q pageParam upstream tplE).writes = []
        ∧ serveWithError (searchHandler q pageParam upstream tplE)
            = (⟨500, e ++ "\n"⟩, some e)) := by
  constructor
  · intro tplE e he
    simp [indexHandler, he, serveWithError, concatAll]
  · intro q pageParam upstream tplE p resp e h1 h2 h3
    simp [searchHandler, h1, h2, h3, serveWithError, concatAll]

theorem claim_C10_buffered_render_witness :
    ((indexHandler "/" (fun _ => Except.error "tpl: boom")).writes = []
     ∧ serveWithError (indexHandler "/" (fun _ => Except.error "tpl: boom"))
        = (⟨500, "tpl: boom" ++ "\n"⟩, some "tpl: boom"))
    ∧ ((searchHandler "cat" "1" (fun _ => Except.ok (respWithHits 50))
          (fun _ => Except.error "tpl: boom")).writes = []
       ∧ serveWithError (searchHandler "cat" "1" (fun _ => Except.ok (respWithHits 50))
            (fun _ => Except.error "tpl: boom"))
          = (⟨500, "tpl: boom" ++ "\n"⟩, some "tpl: boom")) :=
  ⟨claim_C10_buffered_render.1 _ _ rfl,
   claim_C10_buffered_render.2 "cat" "1" _ _ 1 (respWithHits 50) _ rfl rfl rfl⟩

end WikipediaDemo
